import Mathlib

/-!
Shallow embedding of `export.py`: a script that wraps a monocular-depth
network with preprocessing (`DepthKornia`), resolves a symbolic model key,
optionally loads local weights, traces the wrapped module and serializes it
for a mobile interpreter.

Modelling conventions:
  * float32 values are modelled by `FVal`: an exact rational for finite
    values, plus NaN and the two infinities (the script's branches test
    finiteness and compare magnitudes; no claim depends on rounding).
  * Tensors are a shape (list of dimension sizes), a dtype marker and a
    flat row-major data list.
  * External framework capabilities (Kornia's bilinear resize, the wrapped
    network, `torch.hub.load`, `torch.load`, tracing, the mobile optimizer,
    lite-interpreter serialization) are abstract function parameters: the
    script treats them as opaque collaborators.
-/

/-- Model of a float32 scalar: exact rational when finite, or a non-finite
IEEE value (NaN, +inf, -inf). -/
inductive FVal where
  | fin (q : ℚ)
  | nan
  | posinf
  | neginf
deriving DecidableEq, Repr

/-- `torch.isfinite` on one element. -/
def FVal.isFinite : FVal → Bool
  | .fin _ => true
  | _ => false

/-- Elementwise division by a positive finite constant (used with 255.0 and
the ImageNet std entries, all positive, so signs of infinities are kept). -/
def FVal.divPos (v : FVal) (c : ℚ) : FVal :=
  match v with
  | .fin q => .fin (q / c)
  | .nan => .nan
  | .posinf => .posinf
  | .neginf => .neginf

/-- Subtraction of a finite constant (used with the ImageNet mean entries). -/
def FVal.subFin (v : FVal) (c : ℚ) : FVal :=
  match v with
  | .fin q => .fin (q - c)
  | .nan => .nan
  | .posinf => .posinf
  | .neginf => .neginf

/-- Binary max with IEEE NaN propagation, as `torch.max` reduces. -/
def FVal.maxF : FVal → FVal → FVal
  | .nan, _ => .nan
  | _, .nan => .nan
  | .posinf, _ => .posinf
  | _, .posinf => .posinf
  | .neginf, y => y
  | x, .neginf => x
  | .fin p, .fin q => .fin (max p q)

/-- The comparison `· > 1.0` on a float value (false on NaN). -/
def FVal.gtOne : FVal → Bool
  | .fin q => decide (1 < q)
  | .nan => false
  | .posinf => true
  | .neginf => false

/-- Dtype marker: the script only distinguishes float32 from everything else. -/
inductive DType where
  | float32
  | other
deriving DecidableEq, Repr

/-- A tensor: shape, dtype, flat row-major data. -/
structure Tensor where
  shape : List Nat
  dtype : DType
  data : List FVal
deriving DecidableEq, Repr

/-- `x.float()`: value-preserving cast to float32 (uint8/int inputs hold
exactly representable values, so the data list is unchanged). -/
def Tensor.float (t : Tensor) : Tensor :=
  { t with dtype := DType.float32 }

/-- `x.dim()`: the rank. -/
def Tensor.dim (t : Tensor) : Nat := t.shape.length

/-- `y.unsqueeze(d)`: insert a dimension of size 1 at position `d`. -/
def Tensor.unsqueeze (t : Tensor) (d : Nat) : Tensor :=
  { t with shape := t.shape.take d ++ 1 :: t.shape.drop d }

/-- `torch.isfinite(x).all()`. -/
def Tensor.isfiniteAll (t : Tensor) : Bool :=
  t.data.all FVal.isFinite

/-- `x.max()`: reduction by `FVal.maxF` over the data. (PyTorch raises on an
empty tensor; the `[]` case is junk and every theorem that relies on the
maximum assumes a nonempty data list.) -/
def Tensor.maxv (t : Tensor) : FVal :=
  match t.data with
  | [] => FVal.nan
  | v :: vs => vs.foldl FVal.maxF v

/-- `x / 255.0` elementwise. -/
def Tensor.div255 (t : Tensor) : Tensor :=
  { t with data := t.data.map (FVal.divPos · 255) }

/-- ImageNet per-channel mean, the buffer registered as
`torch.tensor([0.485, 0.456, 0.406]).view(1, 3, 1, 1)`. -/
def imagenetMean : Nat → ℚ
  | 0 => 0.485
  | 1 => 0.456
  | _ => 0.406

/-- ImageNet per-channel std, the buffer registered as
`torch.tensor([0.229, 0.224, 0.225]).view(1, 3, 1, 1)`. -/
def imagenetStd : Nat → ℚ
  | 0 => 0.229
  | 1 => 0.224
  | _ => 0.225

/-- `(x - self.mean) / self.std` with the `(1,3,1,1)` buffers broadcast over
a `[1,3,H,W]` tensor: the element at flat index `i` lives in channel
`(i / (H*W)) % 3`. -/
def standardize (t : Tensor) : Tensor :=
  let hw := (t.shape.drop 2).foldl (· * ·) 1
  { t with
    data := t.data.mapIdx fun i v =>
      FVal.divPos (FVal.subFin v (imagenetMean ((i / hw) % 3)))
        (imagenetStd ((i / hw) % 3)) }

/-- The wrapper module: an opaque inner depth network plus the target
resolution fixed at construction time (`self.net`, `self.in_h`, `self.in_w`;
the mean/std buffers are the fixed constants above). -/
structure DepthKornia where
  net : Tensor → Tensor
  in_h : Nat
  in_w : Nat

/-- `DepthKornia.forward`, transcribed line by line from the source:

    if x.dtype != torch.float32: x = x.float()
    if torch.isfinite(x).all():
        x = x / 255.0 if x.max() > 1.0 else x
    x = K.geometry.resize(x, (self.in_h, self.in_w), "bilinear", align_corners=False)
    x = (x - self.mean) / self.std
    y = self.net(x)
    if y.dim() == 3: y = y.unsqueeze(1)
    return y

`kresize` abstracts the external Kornia bilinear resize. -/
def DepthKornia.forward (kresize : Tensor → Nat → Nat → Tensor)
    (m : DepthKornia) (x : Tensor) : Tensor :=
  let x1 := if x.dtype ≠ DType.float32 then x.float else x
  let x2 := if x1.isfiniteAll then (if x1.maxv.gtOne then x1.div255 else x1) else x1
  let x3 := kresize x2 m.in_h m.in_w
  let x4 := standardize x3
  let y := m.net x4
  if y.dim = 3 then y.unsqueeze 1 else y

/-- The spec's `normalize_dtype_and_range` stage: cast to float32 if needed,
then rescale by 255 only when every element is finite and the maximum
exceeds 1.0 (source lines 64-67). -/
def normalize_dtype_and_range (x : Tensor) : Tensor :=
  let x1 := if x.dtype ≠ DType.float32 then x.float else x
  if x1.isfiniteAll then (if x1.maxv.gtOne then x1.div255 else x1) else x1

/-- The spec's `normalize_output_rank` stage: insert a channel dimension when
the network output is rank 3 (source lines 73-74). -/
def normalize_output_rank (y : Tensor) : Tensor :=
  if y.dim = 3 then y.unsqueeze 1 else y

/-- C1: for every input tensor `x`, `DepthKornia.forward` is exactly the
composition `normalize_output_rank (net (standardize (resize
(normalize_dtype_and_range x) in_h in_w)))`, for every resize capability and
every wrapped network: the stages run in that order with no other
transformation. -/
theorem forward_is_stage_composition (kresize : Tensor → Nat → Nat → Tensor)
    (m : DepthKornia) (x : Tensor) :
    m.forward kresize x =
      normalize_output_rank
        (m.net (standardize (kresize (normalize_dtype_and_range x) m.in_h m.in_w))) := rfl

/-- Folding `FVal.maxF` over finite values is the rational `max` fold. -/
lemma foldl_maxF_fin (q : ℚ) (qs : List ℚ) :
    List.foldl FVal.maxF (FVal.fin q) (qs.map FVal.fin) =
      FVal.fin (List.foldl max q qs) := by
  induction qs generalizing q with
  | nil => rfl
  | cons a as ih => simp [List.foldl_cons, FVal.maxF, ih]

/-- A `max`-fold is bounded by `c` iff the seed and every element are. -/
lemma foldl_max_le_iff (c : ℚ) (qs : List ℚ) : ∀ q : ℚ,
    List.foldl max q qs ≤ c ↔ q ≤ c ∧ ∀ x ∈ qs, x ≤ c := by
  induction qs with
  | nil => simp
  | cons a as ih =>
      intro q
      simp only [List.foldl_cons, ih, max_le_iff, List.forall_mem_cons]
      tauto

/-- The dtype-cast step never changes the data list. -/
lemma cast_step_data (t : Tensor) :
    (if t.dtype ≠ DType.float32 then t.float else t).data = t.data := by
  split <;> rfl

/-- C2: on a tensor whose elements are all finite, `normalize_dtype_and_range`
leaves every value unchanged when the maximum is at most 1.0, and divides
every value by exactly 255.0 when the maximum exceeds 1.0. -/
theorem normalize_range_finite (t : Tensor) (q : ℚ) (qs : List ℚ)
    (hdata : t.data = (q :: qs).map FVal.fin) :
    ((∀ r ∈ q :: qs, r ≤ 1) →
      (normalize_dtype_and_range t).data = t.data) ∧
    ((∃ r ∈ q :: qs, 1 < r) →
      (normalize_dtype_and_range t).data = (q :: qs).map fun r => FVal.fin (r / 255)) := by
  have hd : (if t.dtype ≠ DType.float32 then t.float else t).data = t.data :=
    cast_step_data t
  have hfin : (if t.dtype ≠ DType.float32 then t.float else t).isfiniteAll = true := by
    simp only [Tensor.isfiniteAll, hd, hdata, List.all_eq_true]
    rintro v hv
    simp only [List.mem_map] at hv
    obtain ⟨r, _, rfl⟩ := hv
    rfl
  have hmax : (if t.dtype ≠ DType.float32 then t.float else t).maxv =
      FVal.fin (List.foldl max q qs) := by
    simp only [Tensor.maxv, hd, hdata, List.map_cons]
    exact foldl_maxF_fin q qs
  constructor
  · intro hle
    have hgt : (if t.dtype ≠ DType.float32 then t.float else t).maxv.gtOne = false := by
      rw [hmax]
      simp only [FVal.gtOne, decide_eq_false_iff_not, not_lt]
      exact (foldl_max_le_iff 1 qs q).2 ⟨hle q (List.mem_cons_self q qs),
        fun x hx => hle x (List.mem_cons_of_mem q hx)⟩
    simp only [normalize_dtype_and_range, hfin, hgt, if_true, if_false,
      Bool.false_eq_true, hd]
  · intro ⟨r, hr, hr1⟩
    have hgt : (if t.dtype ≠ DType.float32 then t.float else t).maxv.gtOne = true := by
      rw [hmax]
      simp only [FVal.gtOne, decide_eq_true_eq]
      by_contra hcon
      push_neg at hcon
      rcases (foldl_max_le_iff 1 qs q).1 hcon with ⟨h1, h2⟩
      rcases List.mem_cons.1 hr with rfl | hmem
      · exact absurd h1 (not_le.2 hr1)
      · exact absurd (h2 r hmem) (not_le.2 hr1)
    simp only [normalize_dtype_and_range, hfin, hgt, if_true, Tensor.div255, hd, hdata]
    induction qs with
    | nil => simp [FVal.divPos]
    | cons b bs _ => simp [FVal.divPos]

/-- Witness for C2: `[2.0, 1.0]` has a finite maximum above 1.0 and is
divided elementwise by 255. -/
theorem normalize_range_finite_witness :
    (normalize_dtype_and_range
      ⟨[1, 1, 1, 2], DType.float32, [FVal.fin 2, FVal.fin 1]⟩).data =
      [FVal.fin (2 / 255), FVal.fin (1 / 255)] := by
  have h := (normalize_range_finite
      ⟨[1, 1, 1, 2], DType.float32, [FVal.fin 2, FVal.fin 1]⟩ 2 [1] rfl).2
      ⟨2, List.mem_cons_self 2 [1], by norm_num⟩
  simpa using h

/-- C3: a tensor containing any non-finite element skips the rescale branch
entirely: all values pass through unchanged, whatever the finite elements
look like. -/
theorem normalize_skips_nonfinite (t : Tensor)
    (h : ∃ v ∈ t.data, v.isFinite = false) :
    (normalize_dtype_and_range t).data = t.data := by
  obtain ⟨v, hv, hfv⟩ := h
  have hd : (if t.dtype ≠ DType.float32 then t.float else t).data = t.data :=
    cast_step_data t
  have hfin : (if t.dtype ≠ DType.float32 then t.float else t).isfiniteAll = false := by
    simp only [Tensor.isfiniteAll, hd]
    rw [Bool.eq_false_iff]
    intro hall
    rw [List.all_eq_true] at hall
    have := hall v hv
    rw [hfv] at this
    exact Bool.false_ne_true this
  simp only [normalize_dtype_and_range, hfin, Bool.false_eq_true, if_false, hd]

/-- Witness for C3: `[5.0, NaN]` has a finite element above 1.0 yet is not
rescaled. -/
theorem normalize_skips_nonfinite_witness :
    (normalize_dtype_and_range
      ⟨[1, 1, 1, 2], DType.float32, [FVal.fin 5, FVal.nan]⟩).data =
      [FVal.fin 5, FVal.nan] :=
  normalize_skips_nonfinite
    ⟨[1, 1, 1, 2], DType.float32, [FVal.fin 5, FVal.nan]⟩
    ⟨FVal.nan, by simp, rfl⟩

/-- C4: whenever the wrapped network returns rank-4 `(1,1,a,b)` or rank-3
`(1,a,b)` on the standardized input, `forward`'s output is rank 4 with
channel dimension 1. -/
theorem forward_output_rank4 (kresize : Tensor → Nat → Nat → Tensor)
    (m : DepthKornia) (x : Tensor) (a b : Nat)
    (h : (m.net (standardize (kresize (normalize_dtype_and_range x) m.in_h m.in_w))).shape
            = [1, 1, a, b] ∨
         (m.net (standardize (kresize (normalize_dtype_and_range x) m.in_h m.in_w))).shape
            = [1, a, b]) :
    (m.forward kresize x).shape.length = 4 ∧
    (m.forward kresize x).shape.get? 1 = some 1 := by
  have hfw : m.forward kresize x =
      normalize_output_rank
        (m.net (standardize (kresize (normalize_dtype_and_range x) m.in_h m.in_w))) := rfl
  set y := m.net (standardize (kresize (normalize_dtype_and_range x) m.in_h m.in_w)) with hy
  rcases h with h4 | h3
  · have hdim : y.dim ≠ 3 := by simp [Tensor.dim, h4]
    rw [hfw, normalize_output_rank, if_neg hdim]
    simp [h4]
  · have hdim : y.dim = 3 := by simp [Tensor.dim, h3]
    rw [hfw, normalize_output_rank, if_pos hdim]
    simp [Tensor.unsqueeze, h3]

/-- Witness for C4: a constant network returning a rank-3 `(1,2,2)` tensor
yields a rank-4 forward output with channel dimension 1. -/
theorem forward_output_rank4_witness :
    (DepthKornia.forward (fun t _ _ => t)
      ⟨fun _ => ⟨[1, 2, 2], DType.float32, []⟩, 2, 2⟩
      ⟨[1, 3, 2, 2], DType.float32, []⟩).shape.length = 4 ∧
    (DepthKornia.forward (fun t _ _ => t)
      ⟨fun _ => ⟨[1, 2, 2], DType.float32, []⟩, 2, 2⟩
      ⟨[1, 3, 2, 2], DType.float32, []⟩).shape.get? 1 = some 1 :=
  forward_output_rank4 (fun t _ _ => t)
    ⟨fun _ => ⟨[1, 2, 2], DType.float32, []⟩, 2, 2⟩
    ⟨[1, 3, 2, 2], DType.float32, []⟩ 2 2 (Or.inr rfl)

/-- Python `str.lower()` as the script applies it to model keys (the keys
involved are ASCII, where `Char.toLower` agrees with Python). -/
def pyLower (s : String) : String := String.mk (s.data.map Char.toLower)

/-- `MODEL_KEY_MAP`: the fixed symbolic-key to hub-architecture mapping. -/
def MODEL_KEY_MAP : List (String × String) :=
  [("midas_small", "MiDaS_small"),
   ("dpt_swin2_tiny_256", "DPT_Swin2_Tiny_256"),
   ("dpt_levit_224", "DPT_LeViT_224"),
   ("midas_v21_small_256", "MiDaS_small")]

/-- Python `repr` of a string as it appears inside the printed choices list. -/
def pyStrRepr (s : String) : String :=
  let q := String.singleton (Char.ofNat 39)
  q ++ s ++ q

/-- Python `repr` of a list of strings, as `list(MODEL_KEY_MAP.keys())`
prints. -/
def pyListRepr (l : List String) : String :=
  "[" ++ String.intercalate ", " (l.map pyStrRepr) ++ "]"

/-- The diagnostic printed to stderr for an unknown model key. -/
def unknown_model_message (k : String) : String :=
  "Unknown --model " ++ k ++ ". Choices: " ++ pyListRepr (MODEL_KEY_MAP.map Prod.fst)

/-- Outcome of resolving a model key: the hub architecture identifier, or the
unknown-model failure carrying the stderr diagnostic and the exit status. -/
inductive ResolveResult where
  | ok (hubKey : String)
  | unknownModel (stderrMsg : String) (exitCode : Nat)
deriving DecidableEq, Repr

/-- The key-resolution step of `load_midas_model` (source lines 79-82):
`MODEL_KEY_MAP.get(model_key.lower())`, printing the choices and exiting
with status 2 when absent. -/
def resolve_architecture (model_key : String) : ResolveResult :=
  match MODEL_KEY_MAP.lookup (pyLower model_key) with
  | some hub => .ok hub
  | none => .unknownModel (unknown_model_message model_key) 2

/-- C5: a key that case-insensitively matches the fixed mapping resolves to
the mapped architecture identifier; any other string fails with
UnknownModel, carrying the choices diagnostic for the error stream and exit
status 2. -/
theorem resolve_architecture_correct (k : String) :
    ((∃ p ∈ MODEL_KEY_MAP, pyLower p.1 = pyLower k) →
      ∃ v, (pyLower k, v) ∈ MODEL_KEY_MAP ∧ resolve_architecture k = .ok v) ∧
    ((∀ p ∈ MODEL_KEY_MAP, pyLower p.1 ≠ pyLower k) →
      resolve_architecture k = .unknownModel (unknown_model_message k) 2) := by
  constructor
  · rintro ⟨p, hp, hlow⟩
    have hkeys : p = ("midas_small", "MiDaS_small") ∨
        p = ("dpt_swin2_tiny_256", "DPT_Swin2_Tiny_256") ∨
        p = ("dpt_levit_224", "DPT_LeViT_224") ∨
        p = ("midas_v21_small_256", "MiDaS_small") := by
      simpa [ MODEL_KEY_MAP] using hp
    rcases hkeys with rfl | rfl | rfl | rfl
    · have hk : pyLower k = "midas_small" := by
        rw [show pyLower "midas_small" = "midas_small" from rfl] at hlow
        exact hlow.symm
      exact ⟨"MiDaS_small", by rw [hk]; decide,
        by simp [resolve_architecture, hk, MODEL_KEY_MAP, List.lookup]⟩
    · have hk : pyLower k = "dpt_swin2_tiny_256" := by
        rw [show pyLower "dpt_swin2_tiny_256" = "dpt_swin2_tiny_256" from rfl] at hlow
        exact hlow.symm
      exact ⟨"DPT_Swin2_Tiny_256", by rw [hk]; decide,
        by simp [resolve_architecture, hk, MODEL_KEY_MAP, List.lookup]⟩
    · have hk : pyLower k = "dpt_levit_224" := by
        rw [show pyLower "dpt_levit_224" = "dpt_levit_224" from rfl] at hlow
        exact hlow.symm
      exact ⟨"DPT_LeViT_224", by rw [hk]; decide,
        by simp [resolve_architecture, hk, MODEL_KEY_MAP, List.lookup]⟩
    · have hk : pyLower k = "midas_v21_small_256" := by
        rw [show pyLower "midas_v21_small_256" = "midas_v21_small_256" from rfl] at hlow
        exact hlow.symm
      exact ⟨"MiDaS_small", by rw [hk]; decide,
        by simp [resolve_architecture, hk, MODEL_KEY_MAP, List.lookup]⟩
  · intro h
    have h1 : pyLower k ≠ "midas_small" := fun he =>
      h ("midas_small", "MiDaS_small") (by simp [ MODEL_KEY_MAP]) (by rw [he]; rfl)
    have h2 : pyLower k ≠ "dpt_swin2_tiny_256" := fun he =>
      h ("dpt_swin2_tiny_256", "DPT_Swin2_Tiny_256") (by simp [ MODEL_KEY_MAP]) (by rw [he]; rfl)
    have h3 : pyLower k ≠ "dpt_levit_224" := fun he =>
      h ("dpt_levit_224", "DPT_LeViT_224") (by simp [ MODEL_KEY_MAP]) (by rw [he]; rfl)
    have h4 : pyLower k ≠ "midas_v21_small_256" := fun he =>
      h ("midas_v21_small_256", "MiDaS_small") (by simp [ MODEL_KEY_MAP]) (by rw [he]; rfl)
    have b1 : (pyLower k == "midas_small") = false := beq_eq_false_iff_ne.mpr h1
    have b2 : (pyLower k == "dpt_swin2_tiny_256") = false := beq_eq_false_iff_ne.mpr h2
    have b3 : (pyLower k == "dpt_levit_224") = false := beq_eq_false_iff_ne.mpr h3
    have b4 : (pyLower k == "midas_v21_small_256") = false := beq_eq_false_iff_ne.mpr h4
    simp [resolve_architecture, MODEL_KEY_MAP, List.lookup, b1, b2, b3, b4]

/-- Witness for C5: the uppercase variant of a valid key resolves; a bogus
key fails with exit status 2. -/
theorem resolve_architecture_correct_witness :
    resolve_architecture "MIDAS_SMALL" = .ok "MiDaS_small" ∧
    resolve_architecture "notamodel" =
      .unknownModel (unknown_model_message "notamodel") 2 := by
  constructor
  · obtain ⟨v, hv, hres⟩ := (resolve_architecture_correct "MIDAS_SMALL").1
      ⟨("midas_small", "MiDaS_small"), by simp [ MODEL_KEY_MAP], by decide⟩
    have hvv : v = "MiDaS_small" := by
      have : pyLower "MIDAS_SMALL" = "midas_small" := by decide
      rw [this] at hv
      simpa [ MODEL_KEY_MAP] using hv
    rw [hvv] at hres
    exact hres
  · exact (resolve_architecture_correct "notamodel").2 (by decide)

/-- A Python object as `torch.load` can return it here: a dictionary with
string keys, or a tensor leaf (a parameter value). -/
inductive PyObj where
  | dict (entries : List (String × PyObj))
  | tens (t : Tensor)

/-- Network parameters: named tensors, as `net.state_dict()` holds them. -/
abbrev Params := List (String × Tensor)

/-- The state-dict unwrapping step (source lines 87-88):
`if isinstance(sd, dict) and "state_dict" in sd: sd = sd["state_dict"]`. -/
def unwrap_state_dict (sd : PyObj) : PyObj :=
  match sd with
  | PyObj.dict es =>
      match es.lookup "state_dict" with
      | some inner => inner
      | none => PyObj.dict es
  | x => x

/-- Modelled from the spec: `net.load_state_dict(sd, strict=False)` is an
external framework method absent from the source. Per the spec's glossary, a
non-strict load applies a parameter-state mapping while tolerating missing
or unexpected parameter names: a parameter found in the mapping (as a
tensor) is overwritten, every other parameter keeps its value, extra names
in the mapping are ignored, and a non-mapping argument raises. -/
def load_state_dict_nonstrict (params : Params) (sd : PyObj) :
    Except String Params :=
  match sd with
  | PyObj.dict es =>
      Except.ok (params.map fun p =>
        match es.lookup p.1 with
        | some (PyObj.tens t) => (p.1, t)
        | _ => p)
  | _ => Except.error "load_state_dict argument is not a mapping"

/-- The guarded weight-application region of `load_midas_model` (source
lines 86-92): unwrap a nested state dict, then try the non-strict load,
degrading any failure to a stderr warning with the parameters unchanged.
Returns the resulting parameters and the emitted warnings. -/
def apply_weights (net : Params) (sd0 : PyObj) : Params × List String :=
  let sd := unwrap_state_dict sd0
  match load_state_dict_nonstrict net sd with
  | Except.ok p => (p, [])
  | Except.error e =>
      (net, ["Warning: load_state_dict(strict=False) failed: " ++ e])

/-- A one-element tensor holding the single value `q`, for counterexamples. -/
def scalarT (q : ℚ) : Tensor := ⟨[1], DType.float32, [FVal.fin q]⟩

/-- Counterexample to C6 as stated: take the parameter-state mapping
`S = {"state_dict": {}, "w": scalarT 1}` against a network with one
parameter `w = scalarT 0`. Loading the file `{"state_dict": S}` applies
`S` and sets `w := 1`; loading the file `S` directly re-triggers the
unwrapping (a state dict is itself a dict), loads the nested empty mapping
and leaves `w = 0`. The two loads differ. -/
theorem state_dict_unwrap_not_transparent :
    (apply_weights [("w", scalarT 0)]
        (PyObj.dict [("state_dict",
          PyObj.dict [("state_dict", PyObj.dict []),
                      ("w", PyObj.tens (scalarT 1))])])).1 ≠
    (apply_weights [("w", scalarT 0)]
        (PyObj.dict [("state_dict", PyObj.dict []),
                     ("w", PyObj.tens (scalarT 1))])).1 := by
  decide

/-- C6 (amended): for every parameter-state mapping `S` that does not itself
hold a top-level "state_dict" key, loading a file that nests `S` under
"state_dict" applies exactly the same parameters (and warnings) as loading a
file holding `S` directly. -/
theorem state_dict_unwrap_transparent (net : Params) (S : PyObj)
    (hS : ∀ es, S = PyObj.dict es → es.lookup "state_dict" = none) :
    apply_weights net (PyObj.dict [("state_dict", S)]) = apply_weights net S := by
  have hw : unwrap_state_dict (PyObj.dict [("state_dict", S)]) = S := rfl
  have hd : unwrap_state_dict S = S := by
    cases S with
    | dict es =>
        have := hS es rfl
        simp [unwrap_state_dict, this]
    | tens t => rfl
  rw [apply_weights, apply_weights, hw, hd]

/-- Witness for the amended C6: a plain one-parameter mapping loads
identically wrapped or unwrapped. -/
theorem state_dict_unwrap_transparent_witness :
    apply_weights [("w", scalarT 0)]
        (PyObj.dict [("state_dict", PyObj.dict [("w", PyObj.tens (scalarT 1))])]) =
      apply_weights [("w", scalarT 0)] (PyObj.dict [("w", PyObj.tens (scalarT 1))]) :=
  state_dict_unwrap_transparent [("w", scalarT 0)]
    (PyObj.dict [("w", PyObj.tens (scalarT 1))])
    (by intro es hes; cases hes; rfl)

/-- C7: applying a weights file never aborts the export, whatever its
contents: the resulting network keeps exactly its parameter names (mismatched
names are tolerated; missing ones keep their prior, default-initialized
values), and if the non-strict application fails the parameters pass through
unchanged with the failure reported as a stderr warning. -/
theorem weight_mismatch_tolerated (net : Params) (sd0 : PyObj) :
    ((apply_weights net sd0).1.map Prod.fst = net.map Prod.fst) ∧
    (∀ e, load_state_dict_nonstrict net (unwrap_state_dict sd0) = Except.error e →
      apply_weights net sd0 =
        (net, ["Warning: load_state_dict(strict=False) failed: " ++ e])) := by
  constructor
  · rw [apply_weights]
    cases hsd : unwrap_state_dict sd0 with
    | dict es =>
        simp only [load_state_dict_nonstrict]
        rw [List.map_map]
        apply List.map_congr_left
        intro p _
        simp only [Function.comp_apply]
        cases es.lookup p.1 with
        | none => rfl
        | some o => cases o <;> rfl
    | tens t => simp [load_state_dict_nonstrict]
  · intro e he
    rw [apply_weights, he]

/-- Witness for C7: a weights file that is a bare tensor fails the non-strict
load; the parameters pass through with a warning and the names survive. -/
theorem weight_mismatch_tolerated_witness :
    ((apply_weights [("w", scalarT 0)] (PyObj.tens (scalarT 1))).1.map Prod.fst
        = [("w", scalarT 0)].map Prod.fst) ∧
    (apply_weights [("w", scalarT 0)] (PyObj.tens (scalarT 1)) =
      ([("w", scalarT 0)],
       ["Warning: load_state_dict(strict=False) failed: " ++
        "load_state_dict argument is not a mapping"])) :=
  ⟨(weight_mismatch_tolerated [("w", scalarT 0)] (PyObj.tens (scalarT 1))).1,
   (weight_mismatch_tolerated [("w", scalarT 0)] (PyObj.tens (scalarT 1))).2
     "load_state_dict argument is not a mapping" rfl⟩

/-- The external framework capabilities the export pipeline calls, over an
abstract traced-graph type `G`: `torch.hub.load`, `torch.load`, building the
`DepthKornia(base, size, size)` wrapper and `torch.jit.trace`-ing it on a
synthetic example (fused into `trace`), `optimize_for_mobile` (whose
availability or failure is an `error`), and lite-interpreter serialization. -/
structure ExportEnv (G : Type) where
  hubLoad : String → Except String Params
  torchLoad : String → Except String PyObj
  trace : Params → Nat → Except String G
  optimize : G → Except String G
  save : G → String → Except String Unit

/-- Overall outcome of one `export.py` run: a `sys.exit`, an uncaught
exception, or a written artifact, each carrying the stderr warnings
emitted along the way. -/
inductive ExportOutcome (G : Type) where
  | exited (code : Nat) (stderr : List String)
  | raised (err : String) (stderr : List String)
  | done (outPath : String) (graph : G) (stderr : List String)
deriving DecidableEq, Repr

/-- The tail of `export` from tracing onward (source lines 102-113): trace,
then best-effort mobile optimization falling back to the unoptimized graph
on any failure, then serialization. -/
def exportTail {G : Type} (env : ExportEnv G) (net : Params)
    (warns : List String) (size : Nat) (out_path : String) : ExportOutcome G :=
  match env.trace net size with
  | Except.error e => ExportOutcome.raised e warns
  | Except.ok ts =>
      let ts2 := match env.optimize ts with
                 | Except.ok g => g
                 | Except.error _ => ts
      match env.save ts2 out_path with
      | Except.error e => ExportOutcome.raised e warns
      | Except.ok _ => ExportOutcome.done out_path ts2 warns

/-- The `export` entry point (source lines 97-113, with `load_midas_model`
inlined as the source calls it): resolve the key (possibly exiting with
status 2), fetch the architecture from the hub, optionally read and apply a
local weights file — where only the application is guarded — then trace,
optimize best-effort and serialize. -/
def exportPipeline {G : Type} (env : ExportEnv G) (model_name : String)
    (weights_path : Option String) (size : Nat) (out_path : String) :
    ExportOutcome G :=
  match resolve_architecture model_name with
  | ResolveResult.unknownModel msg code => ExportOutcome.exited code [msg]
  | ResolveResult.ok hub =>
      match env.hubLoad hub with
      | Except.error e => ExportOutcome.raised e []
      | Except.ok net0 =>
          match weights_path with
          | none => exportTail env net0 [] size out_path
          | some wp =>
              match env.torchLoad wp with
              | Except.error e => ExportOutcome.raised e []
              | Except.ok sd0 =>
                  let r := apply_weights net0 sd0
                  exportTail env r.1 r.2 size out_path

/-- C8: the mobile-optimization stage never raises past the pipeline
boundary. Whenever the optimizer fails (or is unavailable) for any reason,
the pipeline proceeds with the unoptimized traced graph unchanged and
serialization still takes place. -/
theorem optimizer_failure_nonfatal {G : Type} (env : ExportEnv G)
    (name hub : String) (net0 : Params) (size : Nat) (out : String)
    (ts : G) (e : String)
    (hres : resolve_architecture name = ResolveResult.ok hub)
    (hhub : env.hubLoad hub = Except.ok net0)
    (htrace : env.trace net0 size = Except.ok ts)
    (hopt : env.optimize ts = Except.error e)
    (hsave : env.save ts out = Except.ok ()) :
    exportPipeline env name none size out = ExportOutcome.done out ts [] := by
  simp only [exportPipeline, hres, hhub, exportTail, htrace, hopt, hsave]

/-- Witness for C8: a concrete environment whose optimizer always fails
still produces the artifact with the unoptimized graph. -/
theorem optimizer_failure_nonfatal_witness :
    exportPipeline
      (G := Nat)
      ⟨fun _ => Except.ok [], fun _ => Except.error "io",
       fun _ _ => Except.ok 7, fun _ => Except.error "optimizer unavailable",
       fun _ _ => Except.ok ()⟩
      "midas_small" none 256 "depth_kornia.torchscript.ptl" =
      ExportOutcome.done "depth_kornia.torchscript.ptl" 7 [] :=
  optimizer_failure_nonfatal
    ⟨fun _ => Except.ok [], fun _ => Except.error "io",
     fun _ _ => Except.ok 7, fun _ => Except.error "optimizer unavailable",
     fun _ _ => Except.ok ()⟩
    "midas_small" "MiDaS_small" [] 256 "depth_kornia.torchscript.ptl" 7
    "optimizer unavailable" (by decide) rfl rfl rfl rfl

/-- C9: reading or deserializing the weights file happens outside the
guarded region: a failing `torch.load` propagates and aborts the export
(no artifact, no warning downgrade), unlike a failing application. -/
theorem torch_load_failure_fatal {G : Type} (env : ExportEnv G)
    (name hub wp : String) (net0 : Params) (size : Nat) (out : String)
    (e : String)
    (hres : resolve_architecture name = ResolveResult.ok hub)
    (hhub : env.hubLoad hub = Except.ok net0)
    (hload : env.torchLoad wp = Except.error e) :
    exportPipeline env name (some wp) size out = ExportOutcome.raised e [] := by
  simp only [exportPipeline, hres, hhub, hload]

/-- Witness for C9: a concrete environment whose `torch.load` fails on the
given path makes the whole export raise that error. -/
theorem torch_load_failure_fatal_witness :
    exportPipeline
      (G := Nat)
      ⟨fun _ => Except.ok [], fun _ => Except.error "unreadable weights file",
       fun _ _ => Except.ok 7, fun g => Except.ok g,
       fun _ _ => Except.ok ()⟩
      "midas_small" (some "weights/missing.pt") 256 "out.ptl" =
      ExportOutcome.raised "unreadable weights file" [] :=
  torch_load_failure_fatal
    ⟨fun _ => Except.ok [], fun _ => Except.error "unreadable weights file",
     fun _ _ => Except.ok 7, fun g => Except.ok g,
     fun _ _ => Except.ok ()⟩
    "midas_small" "MiDaS_small" "weights/missing.pt" [] 256 "out.ptl"
    "unreadable weights file" (by decide) rfl rfl

/-- Modelled from the spec: the version ordering of `packaging.version`,
an external library absent from the source. Release segments compare
numerically, componentwise, with missing trailing components read as zero
(so "2" equals "2.0.0"); this is `Version(a) >= Version(b)` restricted to
the plain release versions the script compares. -/
def versionGE : List Nat → List Nat → Bool
  | [], bs => bs.all (fun b => b == 0)
  | a :: as, [] => if a = 0 then versionGE as [] else true
  | a :: as, b :: bs =>
      if b < a then true else if a < b then false else versionGE as bs

/-- The stderr diagnostic printed for a prohibited numpy version. -/
def numpyErrorMessage : String :=
  "ERROR: numpy>=2 detected. Install numpy<2 (e.g., uv pip install " ++
    pyStrRepr "numpy<2" ++ ")."

/-- The module-level numpy guard (source lines 25-32): inside a
`try/except Exception: pass`, import numpy, import `packaging.version`,
parse both versions and compare; on a prohibited version print to stderr
and `sys.exit(1)`. `SystemExit` is not an `Exception`, so the exit escapes
the guard, while any failure of the machinery is swallowed. The result is
the exit status (if any) and the stderr lines. -/
def numpy_version_guard (importNp : Except String String)
    (importPackaging : Except String Unit)
    (parseVersion : String → Except String (List Nat)) :
    Option Nat × List String :=
  match importNp with
  | Except.error _ => (none, [])
  | Except.ok verStr =>
      match importPackaging with
      | Except.error _ => (none, [])
      | Except.ok _ =>
          match parseVersion verStr, parseVersion "2.0.0" with
          | Except.ok v, Except.ok bound =>
              if versionGE v bound then (some 1, [numpyErrorMessage])
              else (none, [])
          | _, _ => (none, [])

/-- C10: the numpy guard is best-effort. If importing numpy, importing the
version helper, or parsing either version fails, the guard is silently
skipped and the program continues; and the guard exits (necessarily with
status 1 and the diagnostic) exactly when the whole machinery runs to
completion and finds a version at or above 2.0.0. -/
theorem numpy_guard_best_effort (importNp : Except String String)
    (importPackaging : Except String Unit)
    (parseVersion : String → Except String (List Nat)) :
    ((∀ e, importNp = Except.error e →
        numpy_version_guard importNp importPackaging parseVersion = (none, [])) ∧
     (∀ s e, importNp = Except.ok s → importPackaging = Except.error e →
        numpy_version_guard importNp importPackaging parseVersion = (none, [])) ∧
     (∀ s e, importNp = Except.ok s → importPackaging = Except.ok () →
        parseVersion s = Except.error e →
        numpy_version_guard importNp importPackaging parseVersion = (none, [])) ∧
     (∀ s v bound, importNp = Except.ok s → importPackaging = Except.ok () →
        parseVersion s = Except.ok v → parseVersion "2.0.0" = Except.ok bound →
        versionGE v bound = true →
        numpy_version_guard importNp importPackaging parseVersion =
          (some 1, [numpyErrorMessage])) ∧
     (∀ c msgs, numpy_version_guard importNp importPackaging parseVersion =
          (some c, msgs) →
        c = 1 ∧ msgs = [numpyErrorMessage] ∧
        ∃ s v bound, importNp = Except.ok s ∧ importPackaging = Except.ok () ∧
          parseVersion s = Except.ok v ∧ parseVersion "2.0.0" = Except.ok bound ∧
          versionGE v bound = true)) := by
  refine ⟨?_, ?_, ?_, ?_, ?_⟩
  · intro e he
    simp only [numpy_version_guard, he]
  · intro s e hs hp
    simp only [numpy_version_guard, hs, hp]
  · intro s e hs hp hv
    simp only [numpy_version_guard, hs, hp, hv]
  · intro s v bound hs hp hv hb hge
    simp only [numpy_version_guard, hs, hp, hv, hb, hge, if_true]
  · intro c msgs hg
    cases hnp : importNp with
    | error e =>
        have hx : numpy_version_guard importNp importPackaging parseVersion = (none, []) := by
          simp only [numpy_version_guard, hnp]
        rw [hx] at hg
        exact absurd hg (by simp)
    | ok s =>
        cases hpk : importPackaging with
        | error e =>
            have hx : numpy_version_guard importNp importPackaging parseVersion = (none, []) := by
              simp only [numpy_version_guard, hnp, hpk]
            rw [hx] at hg
            exact absurd hg (by simp)
        | ok u =>
            cases u
            cases hv : parseVersion s with
            | error e =>
                have hx : numpy_version_guard importNp importPackaging parseVersion = (none, []) := by
                  simp only [numpy_version_guard, hnp, hpk, hv]
                rw [hx] at hg
                exact absurd hg (by simp)
            | ok v =>
                cases hb : parseVersion "2.0.0" with
                | error e =>
                    have hx : numpy_version_guard importNp importPackaging parseVersion
                        = (none, []) := by
                      simp only [numpy_version_guard, hnp, hpk, hv, hb]
                    rw [hx] at hg
                    exact absurd hg (by simp)
                | ok bound =>
                    by_cases hge : versionGE v bound = true
                    · have hx : numpy_version_guard importNp importPackaging parseVersion
                          = (some 1, [numpyErrorMessage]) := by
                        simp only [numpy_version_guard, hnp, hpk, hv, hb]
                        rw [if_pos hge]
                      rw [hx] at hg
                      simp only [Prod.mk.injEq, Option.some.injEq] at hg
                      exact ⟨hg.1.symm, hg.2.symm,
                        s, v, bound, rfl, rfl, hv, rfl, hge⟩
                    · have hx : numpy_version_guard importNp importPackaging parseVersion
                          = (none, []) := by
                        simp only [numpy_version_guard, hnp, hpk, hv, hb]
                        rw [if_neg hge]
                      rw [hx] at hg
                      exact absurd hg (by simp)

/-- Witness for C10: with working machinery and numpy 2.1.0 the guard exits
with status 1 and the diagnostic; with numpy unimportable it is silently
skipped. -/
theorem numpy_guard_best_effort_witness :
    numpy_version_guard (Except.ok "2.1.0") (Except.ok ())
        (fun s => if s = "2.1.0" then Except.ok [2, 1, 0]
                  else if s = "2.0.0" then Except.ok [2, 0, 0]
                  else Except.error "invalid version") =
      (some 1, [numpyErrorMessage]) ∧
    numpy_version_guard (Except.error "No module named numpy") (Except.ok ())
        (fun _ => Except.error "invalid version") = (none, []) :=
  ⟨(numpy_guard_best_effort (Except.ok "2.1.0") (Except.ok ())
      (fun s => if s = "2.1.0" then Except.ok [2, 1, 0]
                else if s = "2.0.0" then Except.ok [2, 0, 0]
                else Except.error "invalid version")).2.2.2.1
      "2.1.0" [2, 1, 0] [2, 0, 0] rfl rfl rfl rfl rfl,
   (numpy_guard_best_effort (Except.error "No module named numpy") (Except.ok ())
      (fun _ => Except.error "invalid version")).1
      "No module named numpy" rfl⟩
